import Mathlib

/-!
Verification of `set_random_seed` (file `src/new_calc.py`).

The function takes an optional integer seed and a `deterministic` flag,
derives a concrete seed (4 bytes of OS entropy, little-endian, when none is
given), writes `PYTHONHASHSEED` with set-if-absent semantics, seeds the
standard `random` module, and best-effort seeds `numpy` and `torch`
(CPU and CUDA RNGs, cudnn flags), suppressing every exception arising from
the optional libraries.  It finally returns the seed as an integer.

The embedding below makes the external world explicit:
* `Libs` records whether `numpy` / `torch` imported successfully and which
  of their calls raise (the Python code catches any `Exception`, so only
  raise-or-not matters, modelled by boolean oracles);
* `State` records the process-wide state the function touches;
* the 4 bytes that `os.urandom(4)` would produce are an explicit argument;
* the result type is `Except PyErr (Int × State)` so that "the function
  never raises" is a provable statement rather than a typing artefact.
-/

namespace NewCalc

/-- A Python exception.  The code under verification only ever suppresses
exceptions from optional libraries, never inspects them, so a single-value
type suffices. -/
abbrev PyErr := Unit

/-- Behaviour of the optional libraries, fixed for the duration of one call.
`npPresent` / `torchPresent` model the module-level `try: import ...`
succeeding (`np is not None` / `torch is not None`).  Each `...Raises`
oracle tells whether the corresponding library call raises when invoked
with a given seed; `cudaIsAvailable` is the result of
`torch.cuda.is_available()`, with `none` meaning that call itself raises. -/
structure Libs where
  npPresent : Bool
  npSeedRaises : Int → Bool
  torchPresent : Bool
  torchManualSeedRaises : Int → Bool
  cudaIsAvailable : Option Bool
  cudaSeedAllRaises : Int → Bool

/-- Process-wide mutable state touched by `set_random_seed`:
the `PYTHONHASHSEED` environment variable, the global state of the standard
`random` generator, numpy's global random state, torch's CPU and CUDA RNG
states, and the two cudnn backend flags.  RNG states are modelled by the
seed last applied to them (`none` = never seeded by this function). -/
structure State where
  pythonhashseed : Option String
  randomState : Option Int
  npRandomState : Option Int
  torchCpuState : Option Int
  torchCudaStates : Option Int
  cudnnDeterministic : Bool
  cudnnBenchmark : Bool
  deriving DecidableEq, Repr

/-- `int.from_bytes(os.urandom(4), byteorder="little")`: the four entropy
bytes interpreted as an unsigned little-endian integer. -/
def intFromBytesLE (b : Fin 4 → Fin 256) : Int :=
  (((b 0).val + 256 * (b 1).val + 65536 * (b 2).val + 16777216 * (b 3).val : Nat) : Int)

/-- `os.environ.setdefault("PYTHONHASHSEED", v)`: writes `v` only when the
variable is currently unset. -/
def environSetdefault (v : String) (st : State) : State :=
  match st.pythonhashseed with
  | some _ => st
  | none => { st with pythonhashseed := some v }

/-- State of a standard-library `random` generator freshly seeded with `s`
through the standard API (`random.seed(s)` on a fresh interpreter).  The
generator's internals are external to this repository; its state is
identified with the seed that produced it, which is exactly what the
refinement claim compares. -/
def pyRandomFreshState (s : Int) : Option Int := some s

/-- `random.seed(seed)`: puts the global standard generator in the state a
freshly seeded generator has. -/
def randomSeed (s : Int) (st : State) : State :=
  { st with randomState := pyRandomFreshState s }

/-- Body of `try: np.random.seed(seed)`: either raises (state unchanged so
far as the try-block got) or seeds numpy's global state.  The second
component is the exception escaping the try-body, if any. -/
def npTry (libs : Libs) (s : Int) (st : State) : State × Option PyErr :=
  if libs.npSeedRaises s then (st, some ())
  else ({ st with npRandomState := some s }, none)

/-- `if np is not None: try: np.random.seed(seed) except Exception: pass`.
The `except ... pass` discards the exception and keeps the partial state. -/
def npBlock (libs : Libs) (s : Int) (st : State) : State :=
  if libs.npPresent then (npTry libs s st).1 else st

/-- Body of the torch `try` block:
`torch.manual_seed(seed)`, then `if torch.cuda.is_available():
torch.cuda.manual_seed_all(seed)`, then `if deterministic:` set the cudnn
flags.  An exception at any step aborts the remaining steps, keeping the
state accumulated so far; the second component is the escaping exception. -/
def torchTry (libs : Libs) (s : Int) (det : Bool) (st : State) : State × Option PyErr :=
  if libs.torchManualSeedRaises s then (st, some ())
  else
    let st1 := { st with torchCpuState := some s }
    match libs.cudaIsAvailable with
    | none => (st1, some ())
    | some avail =>
      if avail then
        if libs.cudaSeedAllRaises s then (st1, some ())
        else
          let st2 := { st1 with torchCudaStates := some s }
          if det then
            ({ st2 with cudnnDeterministic := true, cudnnBenchmark := false }, none)
          else (st2, none)
      else
        if det then
          ({ st1 with cudnnDeterministic := true, cudnnBenchmark := false }, none)
        else (st1, none)

/-- `if torch is not None: try: ... except Exception: pass`. -/
def torchBlock (libs : Libs) (s : Int) (det : Bool) (st : State) : State :=
  if libs.torchPresent then (torchTry libs s det st).1 else st

/-- The concrete seed used: the caller's seed if supplied, otherwise the
entropy bytes read little-endian (`if seed is None: seed = int.from_bytes
(os.urandom(4), byteorder="little")`). -/
def seedVal (seedOpt : Option Int) (entropy : Fin 4 → Fin 256) : Int :=
  match seedOpt with
  | none => intFromBytesLE entropy
  | some s => s

/-- `set_random_seed(seed=None, deterministic=True)` from `src/new_calc.py`.
Follows the source line by line; the final `int(seed)` is the identity on an
integer seed, so the returned value is the seed itself. -/
def set_random_seed (seedOpt : Option Int) (det : Bool) (entropy : Fin 4 → Fin 256)
    (libs : Libs) (st : State) : Except PyErr (Int × State) :=
  let seed : Int := seedVal seedOpt entropy
  let st := environSetdefault (toString seed) st
  let st := randomSeed seed st
  let st := npBlock libs seed st
  let st := torchBlock libs seed det st
  .ok (seed, st)

/-- Unfolding equation for the whole call. -/
theorem set_random_seed_eq (seedOpt : Option Int) (det : Bool) (entropy : Fin 4 → Fin 256)
    (libs : Libs) (st : State) :
    set_random_seed seedOpt det entropy libs st =
      .ok (seedVal seedOpt entropy,
        torchBlock libs (seedVal seedOpt entropy) det
          (npBlock libs (seedVal seedOpt entropy)
            (randomSeed (seedVal seedOpt entropy)
              (environSetdefault (toString (seedVal seedOpt entropy)) st)))) := rfl

/-! Frame lemmas: which fields each step leaves untouched. -/

theorem environSetdefault_frame (v : String) (st : State) :
    (environSetdefault v st).randomState = st.randomState ∧
    (environSetdefault v st).npRandomState = st.npRandomState ∧
    (environSetdefault v st).torchCpuState = st.torchCpuState ∧
    (environSetdefault v st).torchCudaStates = st.torchCudaStates ∧
    (environSetdefault v st).cudnnDeterministic = st.cudnnDeterministic ∧
    (environSetdefault v st).cudnnBenchmark = st.cudnnBenchmark := by
  cases h : st.pythonhashseed <;> simp [environSetdefault, h]

theorem randomSeed_frame (s : Int) (st : State) :
    (randomSeed s st).pythonhashseed = st.pythonhashseed ∧
    (randomSeed s st).npRandomState = st.npRandomState ∧
    (randomSeed s st).torchCpuState = st.torchCpuState ∧
    (randomSeed s st).torchCudaStates = st.torchCudaStates ∧
    (randomSeed s st).cudnnDeterministic = st.cudnnDeterministic ∧
    (randomSeed s st).cudnnBenchmark = st.cudnnBenchmark := by
  simp [randomSeed]

theorem npBlock_frame (libs : Libs) (s : Int) (st : State) :
    (npBlock libs s st).pythonhashseed = st.pythonhashseed ∧
    (npBlock libs s st).randomState = st.randomState ∧
    (npBlock libs s st).torchCpuState = st.torchCpuState ∧
    (npBlock libs s st).torchCudaStates = st.torchCudaStates ∧
    (npBlock libs s st).cudnnDeterministic = st.cudnnDeterministic ∧
    (npBlock libs s st).cudnnBenchmark = st.cudnnBenchmark := by
  cases h1 : libs.npPresent <;> cases h2 : libs.npSeedRaises s <;>
    simp [npBlock, npTry, h1, h2]

theorem torchTry_frame (libs : Libs) (s : Int) (det : Bool) (st : State) :
    ((torchTry libs s det st).1).pythonhashseed = st.pythonhashseed ∧
    ((torchTry libs s det st).1).randomState = st.randomState ∧
    ((torchTry libs s det st).1).npRandomState = st.npRandomState := by
  cases h1 : libs.torchManualSeedRaises s <;>
    cases h2 : libs.cudaIsAvailable <;>
    cases h3 : libs.cudaSeedAllRaises s <;> cases det <;>
    simp [torchTry, h1, h2, h3]
  all_goals
    first
    | rfl
    | (rename_i avail; cases avail <;> simp)

theorem torchBlock_frame (libs : Libs) (s : Int) (det : Bool) (st : State) :
    (torchBlock libs s det st).pythonhashseed = st.pythonhashseed ∧
    (torchBlock libs s det st).randomState = st.randomState ∧
    (torchBlock libs s det st).npRandomState = st.npRandomState := by
  cases h : libs.torchPresent <;> simp [torchBlock, h]
  exact torchTry_frame libs s det st

/-- C1: `set_random_seed` never raises or propagates an error, whatever the
seed (explicit or absent), whatever the entropy bytes, and whatever the
optional libraries do (absent, present, raising at any guarded call): the
result is always `.ok` carrying an integer. -/
theorem set_random_seed_never_raises (seedOpt : Option Int) (det : Bool)
    (entropy : Fin 4 → Fin 256) (libs : Libs) (st : State) :
    ∃ r : Int × State, set_random_seed seedOpt det entropy libs st = .ok r :=
  ⟨_, rfl⟩

/-- C2: for every explicitly supplied integer seed `s`, the call returns
exactly `s`. -/
theorem set_random_seed_returns_given_seed (s : Int) (det : Bool)
    (entropy : Fin 4 → Fin 256) (libs : Libs) (st : State) :
    ∃ st2 : State, set_random_seed (some s) det entropy libs st = .ok (s, st2) :=
  ⟨_, rfl⟩

theorem intFromBytesLE_nonneg (b : Fin 4 → Fin 256) : 0 ≤ intFromBytesLE b := by
  unfold intFromBytesLE
  positivity

theorem intFromBytesLE_le (b : Fin 4 → Fin 256) : intFromBytesLE b ≤ 2 ^ 32 - 1 := by
  have h0 := (b 0).isLt
  have h1 := (b 1).isLt
  have h2 := (b 2).isLt
  have h3 := (b 3).isLt
  have hpow : (2 : Int) ^ 32 - 1 = 4294967295 := by norm_num
  unfold intFromBytesLE
  rw [hpow]
  push_cast
  omega

/-- C3: with no seed supplied, the returned seed is exactly the 4 entropy
bytes read as an unsigned little-endian integer, hence lies in
`[0, 2^32 - 1]`. -/
theorem set_random_seed_none_entropy (det : Bool) (entropy : Fin 4 → Fin 256)
    (libs : Libs) (st : State) :
    ∃ st2 : State,
      set_random_seed none det entropy libs st = .ok (intFromBytesLE entropy, st2) ∧
      0 ≤ intFromBytesLE entropy ∧ intFromBytesLE entropy ≤ 2 ^ 32 - 1 :=
  ⟨_, rfl, intFromBytesLE_nonneg entropy, intFromBytesLE_le entropy⟩

/-! Helper lemmas about the torch block on specific outcomes. -/

theorem seedVal_some (s : Int) (entropy : Fin 4 → Fin 256) :
    seedVal (some s) entropy = s := rfl

theorem torchBlock_present (libs : Libs) (s : Int) (det : Bool) (st : State)
    (hp : libs.torchPresent = true) :
    torchBlock libs s det st = (torchTry libs s det st).1 := by
  simp [torchBlock, hp]

theorem torchTry_cpu (libs : Libs) (s : Int) (det : Bool) (st : State)
    (hms : libs.torchManualSeedRaises s = false) :
    ((torchTry libs s det st).1).torchCpuState = some s := by
  cases h2 : libs.cudaIsAvailable with
  | none => simp [torchTry, hms, h2]
  | some avail =>
    cases avail <;> cases h3 : libs.cudaSeedAllRaises s <;> cases det <;>
      simp [torchTry, hms, h2, h3]

theorem torchTry_cuda (libs : Libs) (s : Int) (det : Bool) (st : State)
    (hms : libs.torchManualSeedRaises s = false)
    (hca : libs.cudaIsAvailable = some true)
    (hsa : libs.cudaSeedAllRaises s = false) :
    ((torchTry libs s det st).1).torchCudaStates = some s := by
  cases det <;> simp [torchTry, hms, hca, hsa]

theorem torchTry_det_flags (libs : Libs) (s : Int) (st : State) (avail : Bool)
    (hms : libs.torchManualSeedRaises s = false)
    (hca : libs.cudaIsAvailable = some avail)
    (hsa : avail = true → libs.cudaSeedAllRaises s = false) :
    ((torchTry libs s true st).1).cudnnDeterministic = true ∧
    ((torchTry libs s true st).1).cudnnBenchmark = false := by
  cases avail
  · simp [torchTry, hms, hca]
  · simp [torchTry, hms, hca, hsa rfl]

/-- Any of the three guarded torch calls raising:
`torch.manual_seed`, `torch.cuda.is_available`, or
`torch.cuda.manual_seed_all` (the latter only runs when the availability
check returned true). -/
def torchBlockRaisesOn (libs : Libs) (s : Int) : Prop :=
  libs.torchManualSeedRaises s = true ∨
  libs.cudaIsAvailable = none ∨
  (libs.cudaIsAvailable = some true ∧ libs.cudaSeedAllRaises s = true)

theorem torchTry_raises_frame (libs : Libs) (s : Int) (det : Bool) (st : State)
    (hr : torchBlockRaisesOn libs s) :
    ((torchTry libs s det st).1).cudnnDeterministic = st.cudnnDeterministic ∧
    ((torchTry libs s det st).1).cudnnBenchmark = st.cudnnBenchmark ∧
    ((torchTry libs s det st).1).torchCudaStates = st.torchCudaStates := by
  rcases hr with h | h | ⟨h1, h2⟩
  · simp [torchTry, h]
  · cases hms : libs.torchManualSeedRaises s <;> simp [torchTry, hms, h]
  · cases hms : libs.torchManualSeedRaises s <;> simp [torchTry, hms, h1, h2]

/-- C5: if `PYTHONHASHSEED` was already set to `v` before the call, it is
still `v` afterwards, for every seed (explicit or absent): `setdefault`
never overwrites an existing value. -/
theorem pythonhashseed_preserved (seedOpt : Option Int) (det : Bool)
    (entropy : Fin 4 → Fin 256) (libs : Libs) (st : State) (v : String)
    (h : st.pythonhashseed = some v) :
    ∃ n : Int, ∃ st2 : State,
      set_random_seed seedOpt det entropy libs st = .ok (n, st2) ∧
      st2.pythonhashseed = some v := by
  refine ⟨_, _, rfl, ?_⟩
  rw [(torchBlock_frame _ _ _ _).1, (npBlock_frame _ _ _).1, (randomSeed_frame _ _).1]
  simp [environSetdefault, h]

/-- C6: if `PYTHONHASHSEED` was unset before the call, afterwards it holds
the string form of the returned seed. -/
theorem pythonhashseed_set_when_unset (seedOpt : Option Int) (det : Bool)
    (entropy : Fin 4 → Fin 256) (libs : Libs) (st : State)
    (h : st.pythonhashseed = none) :
    ∃ n : Int, ∃ st2 : State,
      set_random_seed seedOpt det entropy libs st = .ok (n, st2) ∧
      st2.pythonhashseed = some (toString n) := by
  refine ⟨seedVal seedOpt entropy, _, rfl, ?_⟩
  rw [(torchBlock_frame _ _ _ _).1, (npBlock_frame _ _ _).1, (randomSeed_frame _ _).1]
  simp [environSetdefault, h]

/-- C7: after `set_random_seed(s)`, the standard generator's global state is
exactly the state of a generator freshly seeded with `s` through the
standard API, so both produce the same subsequent draws. -/
theorem random_state_matches_fresh (s : Int) (det : Bool)
    (entropy : Fin 4 → Fin 256) (libs : Libs) (st : State) :
    ∃ st2 : State,
      set_random_seed (some s) det entropy libs st = .ok (s, st2) ∧
      st2.randomState = pyRandomFreshState s := by
  refine ⟨_, rfl, ?_⟩
  rw [(torchBlock_frame _ _ _ _).2.1, (npBlock_frame _ _ _).2.1]
  simp [randomSeed, seedVal]

/-- C8: when torch is present and its calls succeed, the call seeds torch's
CPU RNG with `s`; when a GPU is available it seeds all GPU-device RNGs with
`s`; and when `deterministic` is true it sets `cudnn.deterministic := true`
and `cudnn.benchmark := false`. -/
theorem torch_seeded_on_success (s : Int) (det : Bool)
    (entropy : Fin 4 → Fin 256) (libs : Libs) (st : State) (avail : Bool)
    (hp : libs.torchPresent = true)
    (hms : libs.torchManualSeedRaises s = false)
    (hca : libs.cudaIsAvailable = some avail)
    (hsa : avail = true → libs.cudaSeedAllRaises s = false) :
    ∃ st2 : State,
      set_random_seed (some s) det entropy libs st = .ok (s, st2) ∧
      st2.torchCpuState = some s ∧
      (avail = true → st2.torchCudaStates = some s) ∧
      (det = true → st2.cudnnDeterministic = true ∧ st2.cudnnBenchmark = false) := by
  refine ⟨_, rfl, ?_, ?_, ?_⟩
  · simp only [seedVal_some]
    rw [torchBlock_present _ _ _ _ hp]
    exact torchTry_cpu _ _ _ _ hms
  · intro hav
    subst hav
    simp only [seedVal_some]
    rw [torchBlock_present _ _ _ _ hp]
    exact torchTry_cuda _ _ _ _ hms hca (hsa rfl)
  · intro hdet
    subst hdet
    simp only [seedVal_some]
    rw [torchBlock_present _ _ _ _ hp]
    exact torchTry_det_flags _ _ _ avail hms hca hsa

/-- C9: no sign or range validation: every negative seed `s` is accepted
without error and returned as-is. -/
theorem negative_seed_accepted (s : Int) (det : Bool)
    (entropy : Fin 4 → Fin 256) (libs : Libs) (st : State) (h : s < 0) :
    ∃ st2 : State,
      set_random_seed (some s) det entropy libs st = .ok (s, st2) ∧ s < 0 :=
  ⟨_, rfl, h⟩

/-- C10: the whole torch block sits under one exception guard: if any of
`torch.manual_seed`, `torch.cuda.is_available` or
`torch.cuda.manual_seed_all` raises, the rest of the block is skipped — the
cudnn flags keep their previous values even when `deterministic` is true,
and the GPU RNG state is untouched — and the function still returns
normally with the seed. -/
theorem torch_failure_skips_flags (s : Int) (det : Bool)
    (entropy : Fin 4 → Fin 256) (libs : Libs) (st : State)
    (hp : libs.torchPresent = true)
    (hr : torchBlockRaisesOn libs s) :
    ∃ st2 : State,
      set_random_seed (some s) det entropy libs st = .ok (s, st2) ∧
      st2.cudnnDeterministic = st.cudnnDeterministic ∧
      st2.cudnnBenchmark = st.cudnnBenchmark ∧
      st2.torchCudaStates = st.torchCudaStates := by
  refine ⟨_, rfl, ?_, ?_, ?_⟩
  all_goals simp only [seedVal_some]; rw [torchBlock_present _ _ _ _ hp]
  · rw [(torchTry_raises_frame _ _ _ _ hr).1,
        (npBlock_frame _ _ _).2.2.2.2.1,
        (randomSeed_frame _ _).2.2.2.2.1,
        (environSetdefault_frame _ _).2.2.2.2.1]
  · rw [(torchTry_raises_frame _ _ _ _ hr).2.1,
        (npBlock_frame _ _ _).2.2.2.2.2,
        (randomSeed_frame _ _).2.2.2.2.2,
        (environSetdefault_frame _ _).2.2.2.2.2]
  · rw [(torchTry_raises_frame _ _ _ _ hr).2.2,
        (npBlock_frame _ _ _).2.2.2.1,
        (randomSeed_frame _ _).2.2.2.1,
        (environSetdefault_frame _ _).2.2.2.1]

/-! Concrete fixtures used by witnesses and the counterexample. -/

/-- Entropy whose four bytes are all zero. -/
def ent0 : Fin 4 → Fin 256 := fun _ => 0

/-- Fresh process state: nothing seeded, hash seed unset, cudnn in its
default configuration. -/
def st0 : State :=
  { pythonhashseed := none, randomState := none, npRandomState := none,
    torchCpuState := none, torchCudaStates := none,
    cudnnDeterministic := false, cudnnBenchmark := true }

/-- State in which `PYTHONHASHSEED` is already set (to `"x"`). -/
def stPreset : State := { st0 with pythonhashseed := some ("x") }

/-- Neither numpy nor torch imported. -/
def noLibs : Libs :=
  { npPresent := false, npSeedRaises := fun _ => false, torchPresent := false,
    torchManualSeedRaises := fun _ => false, cudaIsAvailable := some false,
    cudaSeedAllRaises := fun _ => false }

/-- Both libraries imported, CUDA available, no call raises. -/
def torchOkLibs : Libs :=
  { npPresent := true, npSeedRaises := fun _ => false, torchPresent := true,
    torchManualSeedRaises := fun _ => false, cudaIsAvailable := some true,
    cudaSeedAllRaises := fun _ => false }

/-- Torch imported but `torch.manual_seed` raises. -/
def torchFailLibs : Libs :=
  { torchOkLibs with torchManualSeedRaises := fun _ => true }

/-- C4 counterexample: with supplied seed `-1` and `PYTHONHASHSEED` already
set to `"x"`, the call returns a negative integer, and the environment
variable does not hold the string form of the returned value — refuting
both the unconditional non-negativity and the unconditional hash-seed part
of the claimed invariant. -/
theorem seed_invariant_counterexample :
    set_random_seed (some (-1)) true ent0 noLibs stPreset =
      .ok (-1, { stPreset with randomState := some (-1) }) ∧
    ((-1 : Int) < 0) ∧
    ({ stPreset with randomState := some (-1) } : State).pythonhashseed = some ("x") ∧
    toString (-1 : Int) ≠ "x" :=
  ⟨rfl, by norm_num, rfl, by decide⟩

/-- C4 (amended): the returned seed is an integer — non-negative whenever
it was generated from entropy — and that exact value is applied to every
RNG subsystem that was successfully reached (standard `random`, numpy,
torch CPU, torch GPU devices); `PYTHONHASHSEED` receives its string form
exactly when it was previously unset, and keeps its previous value
otherwise. -/
theorem seed_propagation_amended (seedOpt : Option Int) (det : Bool)
    (entropy : Fin 4 → Fin 256) (libs : Libs) (st : State) :
    ∃ st2 : State,
      set_random_seed seedOpt det entropy libs st = .ok (seedVal seedOpt entropy, st2) ∧
      (seedOpt = none → 0 ≤ seedVal seedOpt entropy) ∧
      st2.randomState = some (seedVal seedOpt entropy) ∧
      (libs.npPresent = true → libs.npSeedRaises (seedVal seedOpt entropy) = false →
        st2.npRandomState = some (seedVal seedOpt entropy)) ∧
      (libs.torchPresent = true →
        libs.torchManualSeedRaises (seedVal seedOpt entropy) = false →
        st2.torchCpuState = some (seedVal seedOpt entropy)) ∧
      (libs.torchPresent = true →
        libs.torchManualSeedRaises (seedVal seedOpt entropy) = false →
        libs.cudaIsAvailable = some true →
        libs.cudaSeedAllRaises (seedVal seedOpt entropy) = false →
        st2.torchCudaStates = some (seedVal seedOpt entropy)) ∧
      (st.pythonhashseed = none →
        st2.pythonhashseed = some (toString (seedVal seedOpt entropy))) ∧
      (∀ v : String, st.pythonhashseed = some v → st2.pythonhashseed = some v) := by
  refine ⟨_, rfl, ?_, ?_, ?_, ?_, ?_, ?_, ?_⟩
  · intro h
    subst h
    exact intFromBytesLE_nonneg entropy
  · rw [(torchBlock_frame _ _ _ _).2.1, (npBlock_frame _ _ _).2.1]
    simp [randomSeed, pyRandomFreshState]
  · intro hp hnr
    rw [(torchBlock_frame _ _ _ _).2.2]
    simp [npBlock, npTry, hp, hnr]
  · intro hp hms
    rw [torchBlock_present _ _ _ _ hp]
    exact torchTry_cpu _ _ _ _ hms
  · intro hp hms hca hsa
    rw [torchBlock_present _ _ _ _ hp]
    exact torchTry_cuda _ _ _ _ hms hca hsa
  · intro h
    rw [(torchBlock_frame _ _ _ _).1, (npBlock_frame _ _ _).1, (randomSeed_frame _ _).1]
    simp [environSetdefault, h]
  · intro v h
    rw [(torchBlock_frame _ _ _ _).1, (npBlock_frame _ _ _).1, (randomSeed_frame _ _).1]
    simp [environSetdefault, h]

/-! Witnesses: each applies its theorem at a concrete input. -/

theorem pythonhashseed_preserved_witness :
    ∃ n : Int, ∃ st2 : State,
      set_random_seed (some 42) true ent0 noLibs stPreset = .ok (n, st2) ∧
      st2.pythonhashseed = some ("x") :=
  pythonhashseed_preserved (some 42) true ent0 noLibs stPreset ("x") rfl

theorem pythonhashseed_set_when_unset_witness :
    ∃ n : Int, ∃ st2 : State,
      set_random_seed (some 42) true ent0 noLibs st0 = .ok (n, st2) ∧
      st2.pythonhashseed = some (toString n) :=
  pythonhashseed_set_when_unset (some 42) true ent0 noLibs st0 rfl

theorem torch_seeded_on_success_witness :
    ∃ st2 : State,
      set_random_seed (some 7) true ent0 torchOkLibs st0 = .ok (7, st2) ∧
      st2.torchCpuState = some 7 ∧
      (true = true → st2.torchCudaStates = some 7) ∧
      (true = true → st2.cudnnDeterministic = true ∧ st2.cudnnBenchmark = false) :=
  torch_seeded_on_success 7 true ent0 torchOkLibs st0 true rfl rfl rfl (fun _ => rfl)

theorem negative_seed_accepted_witness :
    ∃ st2 : State,
      set_random_seed (some (-5)) true ent0 noLibs st0 = .ok (-5, st2) ∧
      (-5 : Int) < 0 :=
  negative_seed_accepted (-5) true ent0 noLibs st0 (by norm_num)

theorem torch_failure_skips_flags_witness :
    ∃ st2 : State,
      set_random_seed (some 3) true ent0 torchFailLibs st0 = .ok (3, st2) ∧
      st2.cudnnDeterministic = st0.cudnnDeterministic ∧
      st2.cudnnBenchmark = st0.cudnnBenchmark ∧
      st2.torchCudaStates = st0.torchCudaStates :=
  torch_failure_skips_flags 3 true ent0 torchFailLibs st0 rfl (Or.inl rfl)

theorem seed_propagation_amended_witness :
    ∃ st2 : State,
      set_random_seed (some 5) true ent0 torchOkLibs st0 = .ok (seedVal (some 5) ent0, st2) ∧
      (some (5 : Int) = none → 0 ≤ seedVal (some 5) ent0) ∧
      st2.randomState = some (seedVal (some 5) ent0) ∧
      (torchOkLibs.npPresent = true →
        torchOkLibs.npSeedRaises (seedVal (some 5) ent0) = false →
        st2.npRandomState = some (seedVal (some 5) ent0)) ∧
      (torchOkLibs.torchPresent = true →
        torchOkLibs.torchManualSeedRaises (seedVal (some 5) ent0) = false →
        st2.torchCpuState = some (seedVal (some 5) ent0)) ∧
      (torchOkLibs.torchPresent = true →
        torchOkLibs.torchManualSeedRaises (seedVal (some 5) ent0) = false →
        torchOkLibs.cudaIsAvailable = some true →
        torchOkLibs.cudaSeedAllRaises (seedVal (some 5) ent0) = false →
        st2.torchCudaStates = some (seedVal (some 5) ent0)) ∧
      (st0.pythonhashseed = none →
        st2.pythonhashseed = some (toString (seedVal (some 5) ent0))) ∧
      (∀ v : String, st0.pythonhashseed = some v → st2.pythonhashseed = some v) :=
  seed_propagation_amended (some 5) true ent0 torchOkLibs st0

end NewCalc
